import Mathlib

/-!
Verification of the codetap core against its specification.

The development shallowly embeds the Go sources:
  * `internal/adapter/relay/frame.go` — the mux frame codec
    (`WriteFrame`, `ReadFrame`, `recoverTextError`, `looksLikeText`);
  * `internal/adapter/relay/host.go` — the remote-side mux endpoint
    (`ContainerSide` dispatch loop);
  * `internal/app/service.go` — the CTAP1 control-protocol handler
    (`handleConnect`, `doRestart`, `monitorLease`, the startup socket check).

Bytes are modelled as `Nat` (values < 256 in well-formed streams), byte
streams as `List Nat`, Go maps as association lists, and the fallible
readers as `Except`-valued functions.  Network and file-system effects are
made explicit: a reader consumes a prefix of a byte list, and the startup
check consults an explicit environment record.
-/

namespace CodeTap

/-- Byte values, modelled as natural numbers below 256. -/
abbrev Byte := Nat

/-- Frame is a multiplexed message with a connection ID and payload
    (struct `Frame` in frame.go).  `type` is a Go `byte`, `connID` a Go
    `uint32`, `data` the payload bytes. -/
structure Frame where
  type : Byte
  connID : Nat
  data : List Byte
deriving Repr, DecidableEq

/-- Frame type `FrameOpen = 0x01` (new connection). -/
def FrameOpen : Byte := 0x01

/-- Frame type `FrameData = 0x02` (data payload). -/
def FrameData : Byte := 0x02

/-- Frame type `FrameClose = 0x03` (connection closed). -/
def FrameClose : Byte := 0x03

/-- Frame type `FrameInit = 0x04` (init phase: commit negotiation). -/
def FrameInit : Byte := 0x04

/-- MaxFramePayload limits individual frame payloads to 1MB (frame.go). -/
def MaxFramePayload : Nat := 1 <<< 20

/-- Big-endian 4-byte encoding of a 32-bit value
    (`binary.BigEndian.PutUint32`); values are reduced mod 2^32 exactly as
    the Go `uint32` conversion does. -/
def putUint32BE (n : Nat) : List Byte :=
  [n / 2 ^ 24 % 256, n / 2 ^ 16 % 256, n / 2 ^ 8 % 256, n % 256]

/-- Big-endian 4-byte decoding (`binary.BigEndian.Uint32`). -/
def getUint32BE (b0 b1 b2 b3 : Byte) : Nat :=
  b0 * 2 ^ 24 + b1 * 2 ^ 16 + b2 * 2 ^ 8 + b3

/-- WriteFrame (frame.go lines 32-46): emits the 9-byte header
    `[type:1][conn_id:4 BE][length:4 BE]` followed by the payload.  The
    length field is `uint32(len(f.Data))`, i.e. the payload length reduced
    mod 2^32.  The underlying sink is an in-memory buffer, which never
    fails, so the function is total; note that it performs no validation of
    the payload size. -/
def writeFrame (f : Frame) : List Byte :=
  f.type :: putUint32BE f.connID ++ putUint32BE f.data.length ++ f.data

/-- Predicate for a valid frame type byte:
    `f.Type >= FrameOpen && f.Type <= FrameInit` (frame.go line 60). -/
def validFrameType (t : Byte) : Prop := FrameOpen ≤ t ∧ t ≤ FrameInit

instance (t : Byte) : Decidable (validFrameType t) := by
  unfold validFrameType; infer_instance

/-- Classification of a single byte by `looksLikeText` (frame.go lines
    110-113): printable ASCII `0x20..0x7e` or LF, CR, TAB. -/
def isPrintableByte (b : Byte) : Bool :=
  (0x20 ≤ b && b ≤ 0x7e) || b == 0x0a || b == 0x0d || b == 0x09

/-- looksLikeText (frame.go lines 106-117): true when the count of
    printable bytes satisfies `printable*100/len(data) > 80` under integer
    division, false on empty input. -/
def looksLikeText (data : List Byte) : Bool :=
  if data.length = 0 then false
  else decide (data.countP isPrintableByte * 100 / data.length > 80)

/-- Right-trim used by `recoverTextError`:
    `strings.TrimRight(string(all), "\r\n \t")` removes trailing CR, LF,
    space and TAB bytes. -/
def isTrimByte (b : Byte) : Bool :=
  b == 0x0d || b == 0x0a || b == 0x20 || b == 0x09

/-- Byte-level model of the right trim in `recoverTextError`. -/
def rtrim (l : List Byte) : List Byte :=
  (l.reverse.dropWhile isTrimByte).reverse

/-- Errors produced by the frame reader.  `textError` carries the
    right-trimmed recovered bytes that the Go error formats after the
    notice "remote command wrote text instead of expected binary frame";
    `invalidFrame` carries the type byte and length that the Go error
    formats in hex; `eofHeader` models `io.ReadFull` failing on the 9-byte
    header; `shortData` models `io.ReadFull` failing on the payload. -/
inductive ReadErr where
  | eofHeader
  | textError (msg : List Byte)
  | invalidFrame (ty len : Nat)
  | shortData
deriving Repr, DecidableEq

instance exceptDecEq {ε α : Type} [DecidableEq ε] [DecidableEq α] :
    DecidableEq (Except ε α) := fun a b =>
  match a, b with
  | .error x, .error y =>
    match decEq x y with
    | isTrue h => isTrue (h ▸ rfl)
    | isFalse h => isFalse fun hc => h (Except.error.inj hc)
  | .ok x, .ok y =>
    match decEq x y with
    | isTrue h => isTrue (h ▸ rfl)
    | isFalse h => isFalse fun hc => h (Except.ok.inj hc)
  | .error _, .ok _ => isFalse fun hc => Except.noConfusion hc
  | .ok _, .error _ => isFalse fun hc => Except.noConfusion hc

/-- recoverTextError (frame.go lines 78-102): reads up to 1024 follow-up
    bytes (one bounded read; on an in-memory stream this returns
    `min 1024 rest.length` bytes), appends them to the already-read header,
    and classifies.  The 2-second timeout branch (returning 0 extra bytes)
    does not occur on an in-memory stream. -/
def recoverTextError (header rest : List Byte) : ReadErr :=
  let all := header ++ rest.take 1024
  if looksLikeText all then .textError (rtrim all)
  else .invalidFrame (header.headD 0) (getUint32BE (header.getD 5 0)
    (header.getD 6 0) (header.getD 7 0) (header.getD 8 0))

/-- ReadFrame (frame.go lines 49-75): reads the 9-byte header, validates
    the type and length, enters text recovery on an invalid header, else
    reads the payload.  Returns the frame together with the unconsumed
    remainder of the stream. -/
def readFrame : List Byte → Except ReadErr (Frame × List Byte)
  | t :: c0 :: c1 :: c2 :: c3 :: l0 :: l1 :: l2 :: l3 :: rest =>
    let len := getUint32BE l0 l1 l2 l3
    if ¬ validFrameType t ∨ len > MaxFramePayload then
      .error (recoverTextError [t, c0, c1, c2, c3, l0, l1, l2, l3] rest)
    else if rest.length < len then
      .error .shortData
    else
      .ok (⟨t, getUint32BE c0 c1 c2 c3, rest.take len⟩, rest.drop len)
  | _ => .error .eofHeader

/-- Sequential writes of several frames to one sink
    (`TestFrameMultipleRoundTrips` writes all frames into one buffer). -/
def writeFrames (fs : List Frame) : List Byte :=
  (fs.map writeFrame).flatten

/-- Reading `n` frames in sequence from one stream. -/
def readFrames : Nat → List Byte → Except ReadErr (List Frame × List Byte)
  | 0, s => .ok ([], s)
  | n + 1, s =>
    match readFrame s with
    | .error e => .error e
    | .ok (f, s₁) =>
      match readFrames n s₁ with
      | .error e => .error e
      | .ok (fs, s₂) => .ok (f :: fs, s₂)

/-- Well-formedness of a frame as constrained by claim C1: a valid type
    byte, a `uint32` connection ID (the Go field type guarantees
    `connID < 2^32`), and a payload of at most 2^20 bytes. -/
def ValidFrame (f : Frame) : Prop :=
  validFrameType f.type ∧ f.connID < 2 ^ 32 ∧ f.data.length ≤ MaxFramePayload

instance (f : Frame) : Decidable (ValidFrame f) := by
  unfold ValidFrame; infer_instance

theorem getPut_uint32 (n : Nat) (h : n < 2 ^ 32) :
    getUint32BE (n / 2 ^ 24 % 256) (n / 2 ^ 16 % 256) (n / 2 ^ 8 % 256)
      (n % 256) = n := by
  simp only [getUint32BE]
  omega

theorem readFrame_cons (t c0 c1 c2 c3 l0 l1 l2 l3 : Byte)
    (rest : List Byte) :
    readFrame (t :: c0 :: c1 :: c2 :: c3 :: l0 :: l1 :: l2 :: l3 :: rest) =
      if ¬ validFrameType t ∨ getUint32BE l0 l1 l2 l3 > MaxFramePayload then
        .error (recoverTextError [t, c0, c1, c2, c3, l0, l1, l2, l3] rest)
      else if rest.length < getUint32BE l0 l1 l2 l3 then
        .error .shortData
      else
        .ok (⟨t, getUint32BE c0 c1 c2 c3, rest.take (getUint32BE l0 l1 l2 l3)⟩,
          rest.drop (getUint32BE l0 l1 l2 l3)) := rfl

theorem readFrame_writeFrame (f : Frame) (h : ValidFrame f)
    (rest : List Byte) :
    readFrame (writeFrame f ++ rest) = .ok (f, rest) := by
  obtain ⟨⟨ht1, ht4⟩, hc, hd⟩ := h
  simp only [writeFrame, putUint32BE, List.cons_append, List.append_assoc,
    List.nil_append]
  rw [readFrame_cons]
  rw [getPut_uint32 f.data.length (by simp only [MaxFramePayload] at hd; omega)]
  have hnot : ¬ (¬ validFrameType f.type ∨ f.data.length > MaxFramePayload) := by
    push_neg
    exact ⟨⟨ht1, ht4⟩, hd⟩
  rw [if_neg hnot]
  have hlen : ¬ ((f.data ++ rest).length < f.data.length) := by
    simp [List.length_append]
  rw [if_neg hlen]
  rw [getPut_uint32 f.connID hc]
  simp [List.take_left', List.drop_left']

theorem readFrames_writeFrames (fs : List Frame)
    (h : ∀ f ∈ fs, ValidFrame f) (rest : List Byte) :
    readFrames fs.length (writeFrames fs ++ rest) = .ok (fs, rest) := by
  induction fs with
  | nil => simp [readFrames, writeFrames]
  | cons f fs ih =>
    have hf := h f (by simp)
    have hfs : ∀ g ∈ fs, ValidFrame g := fun g hg => h g (by simp [hg])
    simp only [writeFrames, List.map_cons, List.flatten_cons, List.length_cons,
      List.append_assoc]
    rw [readFrames]
    rw [show ((fs.map writeFrame).flatten ++ rest) = writeFrames fs ++ rest
      from rfl, readFrame_writeFrame f hf]
    simp [ih hfs]

/-- C1: for every frame with a valid type (OPEN, DATA, CLOSE or INIT) and a
    payload of at most 2^20 bytes, ReadFrame applied to the bytes produced
    by WriteFrame returns the same frame (same type, conn_id and payload),
    an empty payload emits only the 9-byte header, and writing any sequence
    of such frames to one sink and then reading that many times returns the
    same frames in the same order. -/
theorem frame_codec_roundtrip (f : Frame) (fs : List Frame)
    (hf : ValidFrame f) (hfs : ∀ g ∈ fs, ValidFrame g) :
    readFrame (writeFrame f) = .ok (f, []) ∧
    (f.data = [] → (writeFrame f).length = 9) ∧
    readFrames fs.length (writeFrames fs) = .ok (fs, []) := by
  refine ⟨?_, ?_, ?_⟩
  · simpa using readFrame_writeFrame f hf []
  · intro h
    simp [writeFrame, putUint32BE, h]
  · simpa using readFrames_writeFrames fs hfs []

/-- Concrete frame used to instantiate the round-trip theorem. -/
def rtFrame : Frame := ⟨0x02, 7, [104, 101, 108, 108, 111]⟩

/-- Concrete frame sequence (from `TestFrameMultipleRoundTrips`) used to
    instantiate the round-trip theorem. -/
def rtFrames : List Frame :=
  [⟨0x04, 0, [97, 98, 99]⟩, ⟨0x01, 1, []⟩, ⟨0x02, 1, [102]⟩,
   ⟨0x02, 4294967295, [120]⟩, ⟨0x03, 1, []⟩]

/-- Witness for C1 at a concrete frame and frame sequence. -/
theorem frame_codec_roundtrip_witness :
    readFrame (writeFrame rtFrame) = .ok (rtFrame, []) ∧
    (rtFrame.data = [] → (writeFrame rtFrame).length = 9) ∧
    readFrames rtFrames.length (writeFrames rtFrames) = .ok (rtFrames, []) :=
  frame_codec_roundtrip rtFrame rtFrames (by decide) (by decide)

/-- Concrete invalid header for the C5 counterexample: type byte 0xff,
    conn_id 0, length 0. -/
def cexHeader : List Byte := [0xff, 0, 0, 0, 0, 0, 0, 0, 0]

/-- Concrete follow-up bytes for the C5 counterexample: 88 printable bytes
    and 12 zero bytes, making 88 of the 109 accumulated bytes printable. -/
def cexRest : List Byte := List.replicate 88 97 ++ List.replicate 12 0

/-- C5 counterexample: an input stream whose first 9 bytes form an invalid
    header and of whose 109 accumulated bytes 88 are printable — strictly
    more than 80 percent (8800 > 8720) — yet ReadFrame classifies it as
    binary and reports the type byte and length, because the code computes
    `printable*100/len > 80` under integer division (8800/109 = 80). -/
theorem text_recovery_threshold_cex :
    80 * (cexHeader ++ cexRest).length <
      100 * (cexHeader ++ cexRest).countP isPrintableByte ∧
    readFrame (cexHeader ++ cexRest) = .error (.invalidFrame 0xff 0) := by
  decide

/-- C5 (amended): for every input stream whose first 9 bytes form an
    invalid header (type outside 0x01..0x04 or length field above 2^20),
    ReadFrame fails, classifying the header plus up to 1024 follow-up
    bytes: when `looksLikeText` holds the error carries those bytes
    verbatim right-trimmed (the text notice case), otherwise it names the
    offending type byte and length; and `looksLikeText` holds exactly when
    `81 * total ≤ 100 * printable` — the integer-division form of the
    80-percent test, i.e. at least 81 percent when the total divides
    evenly, not strictly-more-than-80 percent. -/
theorem text_recovery_classification (t c0 c1 c2 c3 l0 l1 l2 l3 : Byte)
    (rest : List Byte)
    (hinv : ¬ validFrameType t ∨ getUint32BE l0 l1 l2 l3 > MaxFramePayload) :
    readFrame ([t, c0, c1, c2, c3, l0, l1, l2, l3] ++ rest) =
      .error
        (if looksLikeText ([t, c0, c1, c2, c3, l0, l1, l2, l3] ++ rest.take 1024)
          then .textError (rtrim ([t, c0, c1, c2, c3, l0, l1, l2, l3] ++ rest.take 1024))
          else .invalidFrame t (getUint32BE l0 l1 l2 l3)) ∧
    (looksLikeText ([t, c0, c1, c2, c3, l0, l1, l2, l3] ++ rest.take 1024) = true ↔
      81 * ([t, c0, c1, c2, c3, l0, l1, l2, l3] ++ rest.take 1024).length ≤
        100 * ([t, c0, c1, c2, c3, l0, l1, l2, l3] ++ rest.take 1024).countP
          isPrintableByte) := by
  constructor
  · simp only [List.cons_append, List.nil_append]
    rw [readFrame_cons, if_pos hinv]
    simp [recoverTextError]
  · have hlen : ([t, c0, c1, c2, c3, l0, l1, l2, l3] ++ rest.take 1024).length ≠ 0 := by
      simp
    rw [looksLikeText, if_neg hlen, decide_eq_true_iff]
    rw [gt_iff_lt, Nat.lt_iff_add_one_le,
      Nat.le_div_iff_mul_le (Nat.pos_of_ne_zero hlen)]
    constructor <;> intro hle <;> nlinarith [hle]

/-- Witness bytes for the amended C5 theorem: the text
    "bash: err" followed by a newline, all printable. -/
def witText : List Byte := [98, 97, 115, 104, 58, 32, 101, 114, 114, 10]

/-- Witness for the amended C5 theorem at a concrete text input. -/
theorem text_recovery_classification_witness :
    readFrame ([98, 97, 115, 104, 58, 32, 101, 114, 114] ++ [10]) =
      .error
        (if looksLikeText ([98, 97, 115, 104, 58, 32, 101, 114, 114] ++ [10].take 1024)
          then .textError (rtrim ([98, 97, 115, 104, 58, 32, 101, 114, 114] ++ [10].take 1024))
          else .invalidFrame 98 (getUint32BE 32 101 114 114)) ∧
    (looksLikeText ([98, 97, 115, 104, 58, 32, 101, 114, 114] ++ [10].take 1024) = true ↔
      81 * ([98, 97, 115, 104, 58, 32, 101, 114, 114] ++ [10].take 1024).length ≤
        100 * ([98, 97, 115, 104, 58, 32, 101, 114, 114] ++ [10].take 1024).countP
          isPrintableByte) :=
  text_recovery_classification 98 97 115 104 58 32 101 114 114 [10] (by decide)

/-- Decode a 4-byte big-endian slice; yields 0 on any other arity. -/
def decode32 : List Byte → Nat
  | [a, b, c, d] => getUint32BE a b c d
  | _ => 0

/-- Oversized payload used to exhibit C10: 2^20 + 1 bytes, one past the
    limit. -/
def bigPayload : List Byte := List.replicate (2 ^ 20 + 1) 97

theorem bigPayload_length : bigPayload.length = 2 ^ 20 + 1 := by
  unfold bigPayload
  exact List.length_replicate ..

theorem writeFrame_bigPayload :
    writeFrame ⟨FrameData, 0, bigPayload⟩ =
      2 :: 0 :: 0 :: 0 :: 0 :: 0 :: 16 :: 0 :: 1 :: bigPayload := by
  show FrameData :: putUint32BE 0 ++ putUint32BE bigPayload.length ++ bigPayload = _
  rw [bigPayload_length]
  rfl

/-- C10: WriteFrame performs no payload-size validation — there is a frame
    with a valid type and a payload strictly larger than 2^20 bytes (and
    below 2^32) for which WriteFrame succeeds, the emitted length field
    (bytes 5..9 of the output) equals the payload length, and ReadFrame on
    the resulting bytes returns an error rather than the frame. -/
theorem writer_skips_size_validation :
    ∃ f : Frame, validFrameType f.type ∧ MaxFramePayload < f.data.length ∧
      f.data.length < 2 ^ 32 ∧
      decode32 (((writeFrame f).drop 5).take 4) = f.data.length ∧
      ∃ e, readFrame (writeFrame f) = .error e := by
  refine ⟨⟨FrameData, 0, bigPayload⟩, ?_, ?_, ?_, ?_, ?_⟩
  · show validFrameType FrameData
    decide
  · show MaxFramePayload < bigPayload.length
    rw [bigPayload_length]
    decide
  · show bigPayload.length < 2 ^ 32
    rw [bigPayload_length]
    decide
  · show decode32 (((writeFrame ⟨FrameData, 0, bigPayload⟩).drop 5).take 4) =
      bigPayload.length
    rw [writeFrame_bigPayload, bigPayload_length]
    simp only [List.drop_succ_cons, List.drop_zero, List.take_succ_cons,
      List.take_zero]
    decide
  · refine ⟨recoverTextError [2, 0, 0, 0, 0, 0, 16, 0, 1] bigPayload, ?_⟩
    rw [writeFrame_bigPayload, readFrame_cons, if_pos]
    right
    decide

/-!  Remote-side mux endpoint: `ContainerSide` (host.go).  The dispatch
loop reads frames from stdin and maintains `conns`, the table of outbound
Unix-socket dials keyed by conn_id.  The embedding makes the effects of
one loop iteration explicit: the connection table (a list of mapped ids),
the frames written to stdout through the frame writer, the payloads
written to mapped sockets, and the sockets closed.  Whether a `net.Dial`
for an OPEN frame succeeds is an environment choice, so each input frame
carries a `dialOk` flag consulted only for OPEN.  The per-connection
reader goroutines spawned on successful OPEN exchange data concurrently
and are outside this dispatch model. -/

/-- State of the `ContainerSide` dispatch loop. -/
structure MuxState where
  conns : List Nat
  outFrames : List Frame
  sockWrites : List (Nat × List Byte)
  closedSocks : List Nat
deriving Repr, DecidableEq

/-- Initial dispatch state: empty table, nothing written or closed. -/
def muxInit : MuxState := ⟨[], [], [], []⟩

/-- Store into the connection table (`conns.Store`): the key set gains the
    id; storing an existing id replaces the value, leaving the key set
    unchanged. -/
def storeConn (l : List Nat) (id : Nat) : List Nat :=
  if id ∈ l then l else id :: l

/-- Delete from the connection table (`conns.Delete` and
    `conns.LoadAndDelete`). -/
def deleteConn (l : List Nat) (id : Nat) : List Nat :=
  l.filter (fun x => x ≠ id)

/-- One iteration of the `ContainerSide` dispatch switch (host.go lines
    340-377) on a frame read from stdin.  `dialOk` tells whether the
    `net.Dial` performed for an OPEN frame succeeds. -/
def containerStep (st : MuxState) (f : Frame) (dialOk : Bool) : MuxState :=
  if f.type = FrameOpen then
    if dialOk then
      { st with conns := storeConn st.conns f.connID }
    else
      { st with outFrames := st.outFrames ++ [⟨FrameClose, f.connID, []⟩] }
  else if f.type = FrameData then
    if f.connID ∈ st.conns then
      { st with sockWrites := st.sockWrites ++ [(f.connID, f.data)] }
    else st
  else if f.type = FrameClose then
    if f.connID ∈ st.conns then
      { st with conns := deleteConn st.conns f.connID,
                closedSocks := st.closedSocks ++ [f.connID] }
    else st
  else st

/-- How the input stream of `ContainerSide` ends: end of stream
    (`io.EOF`) or any other read error. -/
inductive MuxEnding where
  | eof
  | readErr
deriving Repr, DecidableEq

/-- ContainerSide (host.go lines 321-379) over a whole input: dispatch
    every frame, then, when the stream ends, close every mapped socket;
    return `ok` on `io.EOF` and an error otherwise. -/
def containerSide (evs : List (Frame × Bool)) (ending : MuxEnding) :
    Except Unit Unit × MuxState :=
  let final := evs.foldl (fun st ev => containerStep st ev.1 ev.2) muxInit
  ((match ending with
    | .eof => .ok ()
    | .readErr => .error ()),
   { final with conns := [],
                closedSocks := final.closedSocks ++ final.conns })

/-- C8: the remote-side mux endpoint tolerates frames for unknown
    connection IDs and terminates cleanly: a DATA frame whose conn_id is
    not in the table leaves the state untouched, a CLOSE frame for an
    unknown conn_id is a no-op (so CLOSE is idempotent), an OPEN frame
    whose local dial fails emits exactly one CLOSE frame for that conn_id
    and adds no table entry, and end of the input stream closes every
    mapped socket and returns without error. -/
theorem container_side_tolerant :
    (∀ st f d, f.type = FrameData → f.connID ∉ st.conns →
      containerStep st f d = st) ∧
    (∀ st f d, f.type = FrameClose → f.connID ∉ st.conns →
      containerStep st f d = st) ∧
    (∀ st id data, containerStep st ⟨FrameOpen, id, data⟩ false =
      { st with outFrames := st.outFrames ++ [⟨FrameClose, id, []⟩] }) ∧
    (∀ evs, (containerSide evs .eof).1 = .ok () ∧
      (containerSide evs .eof).2.conns = [] ∧
      ∀ id ∈ (evs.foldl (fun st ev => containerStep st ev.1 ev.2) muxInit).conns,
        id ∈ (containerSide evs .eof).2.closedSocks) := by
  refine ⟨?_, ?_, ?_, ?_⟩
  · intro st f d hty hmem
    simp [containerStep, hty, FrameData, FrameOpen, hmem]
  · intro st f d hty hmem
    simp [containerStep, hty, FrameClose, FrameOpen, FrameData, hmem]
  · intro st id data
    simp [containerStep, FrameOpen]
  · intro evs
    refine ⟨rfl, rfl, ?_⟩
    intro id hid
    simp [containerSide, hid]

/-- Witness for C8 at concrete states and inputs: a DATA frame and a CLOSE
    frame for unmapped conn_id 5, a failed OPEN for conn_id 9, and a run
    that maps conn_ids 1 and 2, closes 1, and then hits end of stream with
    2 still mapped. -/
theorem container_side_tolerant_witness :
    containerStep ⟨[1], [], [], []⟩ ⟨FrameData, 5, [7]⟩ true = ⟨[1], [], [], []⟩ ∧
    containerStep ⟨[1], [], [], []⟩ ⟨FrameClose, 5, []⟩ true = ⟨[1], [], [], []⟩ ∧
    containerStep ⟨[1], [], [], []⟩ ⟨FrameOpen, 9, []⟩ false =
      ⟨[1], [⟨FrameClose, 9, []⟩], [], []⟩ ∧
    (containerSide [(⟨FrameOpen, 1, []⟩, true), (⟨FrameOpen, 2, []⟩, true),
        (⟨FrameData, 2, [104]⟩, true), (⟨FrameClose, 1, []⟩, true)] .eof).1 =
      .ok () ∧
    2 ∈ (containerSide [(⟨FrameOpen, 1, []⟩, true), (⟨FrameOpen, 2, []⟩, true),
        (⟨FrameData, 2, [104]⟩, true), (⟨FrameClose, 1, []⟩, true)] .eof).2.closedSocks := by
  obtain ⟨h1, h2, h3, h4⟩ := container_side_tolerant
  refine ⟨h1 _ _ _ rfl (by decide), h2 _ _ _ rfl (by decide), ?_, (h4 _).1, ?_⟩
  · rw [h3]
    rfl
  · exact (h4 _).2.2 2 (by decide)

/-!  CTAP1 control protocol and the restart state machine (service.go).
`sessionState` is embedded as `Sess`; the `leases` map becomes an
association list whose insert removes the previous binding.  All the code
that runs under `state.mu` between one `Lock` and the matching `Unlock` is
one atomic step of the model:

  * `handleConnect` — the first critical section of the Go `handleConnect`
    (lines 330-375), taking the request line already split by
    `strings.Fields`.  It either finishes the request (same-version grant
    or an error reply) or records a pending restart and sets
    `restartInProgress`.
  * `restartDone` / `restartFailed` — `doRestart` reporting through the
    result channel; on success the final critical section (lines 254-260)
    updates `commit`, `token`, `startedAt`, `waitFn`, `stopFn` together.
    The ghost field `generations` records the (commit, token) pair of
    every server started, so the pairing invariant can be stated.
  * `connectResume` — the requester resuming at lines 384-399.
  * `monitorFire` — `monitorLease` (lines 403-412) waking up on EOF/error
    of a lease connection.

Connections are abstract handles (`Conn := Nat`); responses carry their
data constructively and `renderResponse` mirrors the exact
`fmt.Fprintf` format strings. -/

/-- Control connection handle. -/
abbrev Conn := Nat

/-- Lookup in the leases map (`state.leases[clientID]`). -/
def lookupLease (ls : List (String × Conn)) (id : String) : Option Conn :=
  (ls.find? (fun p => p.1 == id)).map (fun p => p.2)

/-- Removal from the leases map (`delete(state.leases, clientID)`). -/
def eraseLease (ls : List (String × Conn)) (id : String) :
    List (String × Conn) :=
  ls.filter (fun p => !(p.1 == id))

/-- Insertion into the leases map (`state.leases[clientID] = conn`);
    replaces any previous binding for the key. -/
def insertLease (ls : List (String × Conn)) (id : String) (c : Conn) :
    List (String × Conn) :=
  (id, c) :: eraseLease ls id

/-- Progress of the single in-flight restart request. -/
inductive RestartPhase where
  | requested
  | doneOk (newToken : String)
  | doneErr (msg : String)
deriving Repr, DecidableEq

/-- The restart request a blocked CONNECT handler is waiting on: its
    connection, client id, the commit it asked for, and how far `doRestart`
    has progressed. -/
structure PendingRestart where
  conn : Conn
  clientID : String
  newCommit : String
  phase : RestartPhase
deriving Repr, DecidableEq

/-- sessionState (service.go lines 60-73), restricted to the fields the
    control protocol reads and writes: `commit`, `token`, `leases` and
    `restartInProgress`.  `pending` carries the single in-flight restart
    request (the Go code keeps it on the handler goroutine's stack and in
    the restart channel).  `generations` is a ghost history of the
    (commit, token) pair of every server started for this session. -/
structure Sess where
  commit : String
  token : String
  leases : List (String × Conn)
  restartInProgress : Bool
  pending : Option PendingRestart
  generations : List (String × String)
deriving Repr, DecidableEq

/-- Session state right after Run finished startup: commit and token from
    startup, no leases, no restart in flight. -/
def initSess (commit token : String) : Sess :=
  ⟨commit, token, [], false, none, [(commit, token)]⟩

/-- Replies written by `handleConnect`, as structured data. -/
inductive Response where
  | okTok (token : String)
  | errSyntax
  | errMismatch (current : String) (n : Nat)
  | errInProgress
  | errRestartFailed (msg : String)
deriving Repr, DecidableEq

/-- The exact reply lines of service.go (`fmt.Fprintf` formats at lines
    323, 345, 363, 370, 388, 397). -/
def renderResponse : Response → String
  | .okTok t => "OK " ++ t ++ "\n"
  | .errSyntax => "ERR invalid CONNECT syntax\n"
  | .errMismatch current n =>
      "ERR version mismatch: " ++ current ++ " running, " ++ toString n ++
        " client(s) connected\n"
  | .errInProgress => "ERR restart already in progress\n"
  | .errRestartFailed msg => "ERR restart failed: " ++ msg ++ "\n"

/-- Observable outcome of one critical section of the CONNECT handler. -/
structure ConnectResult where
  sess : Sess
  response : Option Response
  closedConns : List Conn
  deadlineCleared : Bool
  monitorStarted : Bool
deriving Repr, DecidableEq

/-- handleConnect (service.go lines 320-400) up to its first reply or to
    parking on the restart channel.  `parts` is the request line as split
    by `strings.Fields`; a line with other than four fields is rejected.
    The branches mirror the Go control flow: replace any existing lease
    for the same client_id, then same-version grant, version-mismatch
    error, restart-already-in-progress error, or entering a restart. -/
def handleConnect (s : Sess) (conn : Conn) (parts : List String) :
    ConnectResult :=
  match parts with
  | [_, _, clientCommit, clientID] =>
    let closedOld := match lookupLease s.leases clientID with
      | some old => [old]
      | none => []
    let leases₁ := eraseLease s.leases clientID
    if clientCommit = s.commit then
      { sess := { s with leases := insertLease leases₁ clientID conn },
        response := some (.okTok s.token),
        closedConns := closedOld,
        deadlineCleared := true,
        monitorStarted := true }
    else
      let conflicting := (leases₁.filter (fun p => !(p.1 == clientID))).length
      if conflicting > 0 then
        { sess := { s with leases := leases₁ },
          response := some (.errMismatch s.commit conflicting),
          closedConns := closedOld ++ [conn],
          deadlineCleared := false,
          monitorStarted := false }
      else if s.restartInProgress then
        { sess := { s with leases := leases₁ },
          response := some .errInProgress,
          closedConns := closedOld ++ [conn],
          deadlineCleared := false,
          monitorStarted := false }
      else
        { sess := { s with
            leases := leases₁,
            restartInProgress := true,
            pending := some ⟨conn, clientID, clientCommit, .requested⟩ },
          response := none,
          closedConns := closedOld,
          deadlineCleared := false,
          monitorStarted := false }
  | _ =>
    { sess := s, response := some .errSyntax, closedConns := [conn],
      deadlineCleared := false, monitorStarted := false }

/-- doRestart succeeding (service.go lines 227-264): a new server has been
    started for the pending commit with a fresh token; the final critical
    section (lines 254-260) updates `commit` and `token` together.  The
    ghost `generations` list records the new pair. -/
def restartDone (s : Sess) (newToken : String) : Sess :=
  match s.pending with
  | some p =>
    if p.phase = .requested then
      { s with commit := p.newCommit, token := newToken,
               generations := (p.newCommit, newToken) :: s.generations,
               pending := some { p with phase := .doneOk newToken } }
    else s
  | none => s

/-- doRestart failing: the error is reported through the result channel;
    no session field changes. -/
def restartFailed (s : Sess) (msg : String) : Sess :=
  match s.pending with
  | some p =>
    if p.phase = .requested then
      { s with pending := some { p with phase := .doneErr msg } }
    else s
  | none => s

/-- The blocked CONNECT handler resuming after the restart result arrives
    (service.go lines 384-399): one critical section clears
    `restartInProgress`, and on success inserts the lease and reads the
    token to reply with; on failure the error is reported and the
    connection closed. -/
def connectResume (s : Sess) : ConnectResult :=
  match s.pending with
  | some p =>
    match p.phase with
    | .doneOk _ =>
      { sess := { s with
          restartInProgress := false,
          pending := none,
          leases := insertLease s.leases p.clientID p.conn },
        response := some (.okTok s.token),
        closedConns := [],
        deadlineCleared := true,
        monitorStarted := true }
    | .doneErr msg =>
      { sess := { s with restartInProgress := false, pending := none },
        response := some (.errRestartFailed msg),
        closedConns := [p.conn],
        deadlineCleared := false,
        monitorStarted := false }
    | .requested =>
      { sess := s, response := none, closedConns := [],
        deadlineCleared := false, monitorStarted := false }
  | none =>
    { sess := s, response := none, closedConns := [],
      deadlineCleared := false, monitorStarted := false }

/-- monitorLease (service.go lines 403-412) waking up on EOF/error of the
    monitored connection: the lease is removed only if the stored handle
    is still the monitored connection. -/
def monitorFire (s : Sess) (clientID : String) (conn : Conn) : Sess :=
  if lookupLease s.leases clientID = some conn then
    { s with leases := eraseLease s.leases clientID }
  else s

/-- One interleaving step of the session: any control connection may issue
    a CONNECT, the lifecycle goroutine may complete or fail the pending
    restart, the parked handler may resume, and any lease monitor may
    fire. -/
inductive SessStep : Sess → Sess → Prop where
  | connect (s : Sess) (conn : Conn) (parts : List String) :
      SessStep s (handleConnect s conn parts).sess
  | restartOk (s : Sess) (newToken : String) :
      SessStep s (restartDone s newToken)
  | restartErr (s : Sess) (msg : String) :
      SessStep s (restartFailed s msg)
  | resume (s : Sess) :
      SessStep s (connectResume s).sess
  | monitor (s : Sess) (clientID : String) (conn : Conn) :
      SessStep s (monitorFire s clientID conn)

/-- Session states reachable from startup under any interleaving of
    control connections, restarts and monitors. -/
inductive SessReachable : Sess → Prop where
  | init (commit token : String) : SessReachable (initSess commit token)
  | step {s s' : Sess} : SessReachable s → SessStep s s' → SessReachable s'

theorem lookupLease_insert_self (l : List (String × Conn)) (id : String)
    (c : Conn) : lookupLease (insertLease l id c) id = some c := by
  simp [lookupLease, insertLease, List.find?_cons]

theorem lookupLease_erase_self (l : List (String × Conn)) (id : String) :
    lookupLease (eraseLease l id) id = none := by
  induction l with
  | nil => rfl
  | cons p l ih =>
    rw [eraseLease, List.filter_cons]
    cases hp : (p.1 == id) with
    | true => simpa [eraseLease] using ih
    | false =>
      rw [Bool.not_false, if_pos rfl, lookupLease, List.find?_cons, hp]
      exact ih

theorem lookupLease_erase_ne (l : List (String × Conn)) (id id' : String)
    (h : id' ≠ id) :
    lookupLease (eraseLease l id) id' = lookupLease l id' := by
  induction l with
  | nil => rfl
  | cons p l ih =>
    rw [eraseLease, List.filter_cons]
    cases hp : (p.1 == id) with
    | true =>
      have hq : (p.1 == id') = false := by
        rw [beq_iff_eq] at hp
        rw [hp, beq_eq_false_iff_ne]
        exact h.symm
      rw [Bool.not_true, if_neg (by simp)]
      rw [show lookupLease (p :: l) id' = lookupLease l id' from by
        rw [lookupLease, List.find?_cons, hq]; rfl]
      simpa [eraseLease] using ih
    | false =>
      rw [Bool.not_false, if_pos rfl, lookupLease, List.find?_cons]
      rw [show lookupLease (p :: l) id' = _ from by
        rw [lookupLease, List.find?_cons]]
      cases hq : (p.1 == id') with
      | true => rfl
      | false => simpa [eraseLease, lookupLease] using ih

theorem lookupLease_insert_ne (l : List (String × Conn)) (id id' : String)
    (c : Conn) (h : id' ≠ id) :
    lookupLease (insertLease l id c) id' = lookupLease l id' := by
  have hne : ((id, c).1 == id') = false := by
    rw [beq_eq_false_iff_ne]
    exact h.symm
  rw [insertLease, lookupLease, List.find?_cons, hne]
  exact lookupLease_erase_ne l id id' h

/-- C3: a CONNECT whose submitted commit equals the current commit inserts
    the connection into the leases table keyed by the submitted client_id
    (other keys untouched), clears the read deadline, responds with exactly
    the one line `OK <token>` carrying the token held in state at that
    moment, does not close the connection, and starts the lease monitor;
    the monitor removes the lease exactly when the stored handle is still
    this connection (EOF/error of that connection), and is a no-op once the
    stored handle differs. -/
theorem connect_same_version (s : Sess) (conn : Conn) (p0 p1 cid : String)
    (hfresh : lookupLease s.leases cid ≠ some conn) :
    (handleConnect s conn [p0, p1, s.commit, cid]).response =
      some (.okTok s.token) ∧
    ((handleConnect s conn [p0, p1, s.commit, cid]).response.map
      renderResponse) = some ("OK " ++ s.token ++ "\n") ∧
    lookupLease (handleConnect s conn [p0, p1, s.commit, cid]).sess.leases
      cid = some conn ∧
    (∀ id, id ≠ cid →
      lookupLease (handleConnect s conn [p0, p1, s.commit, cid]).sess.leases
        id = lookupLease s.leases id) ∧
    (handleConnect s conn [p0, p1, s.commit, cid]).deadlineCleared = true ∧
    conn ∉ (handleConnect s conn [p0, p1, s.commit, cid]).closedConns ∧
    (handleConnect s conn [p0, p1, s.commit, cid]).monitorStarted = true ∧
    monitorFire (handleConnect s conn [p0, p1, s.commit, cid]).sess cid conn =
      { (handleConnect s conn [p0, p1, s.commit, cid]).sess with
          leases := eraseLease
            (handleConnect s conn [p0, p1, s.commit, cid]).sess.leases cid } ∧
    (∀ s' : Sess, lookupLease s'.leases cid ≠ some conn →
      monitorFire s' cid conn = s') := by
  have hstep : handleConnect s conn [p0, p1, s.commit, cid] =
      { sess := { s with leases := insertLease (eraseLease s.leases cid) cid conn },
        response := some (.okTok s.token),
        closedConns := match lookupLease s.leases cid with
          | some old => [old]
          | none => [],
        deadlineCleared := true,
        monitorStarted := true } := by
    simp [handleConnect]
  rw [hstep]
  refine ⟨rfl, rfl, ?_, ?_, rfl, ?_, rfl, ?_, ?_⟩
  · exact lookupLease_insert_self _ _ _
  · intro id hid
    simp only []
    rw [lookupLease_insert_ne _ _ _ _ hid, lookupLease_erase_ne _ _ _ hid]
  · cases hc : lookupLease s.leases cid with
    | none => simp
    | some old =>
      simp only [List.mem_singleton]
      intro he
      exact hfresh (he ▸ hc)
  · rw [monitorFire, if_pos (lookupLease_insert_self _ _ _)]
  · intro s' hne
    rw [monitorFire, if_neg hne]

/-- Witness for C3: a session holding a lease for client c9 receives a
    same-commit CONNECT for client c1 on connection 2. -/
theorem connect_same_version_witness :
    (handleConnect ⟨"aaa", "t0", [("c9", 7)], false, none, [("aaa", "t0")]⟩
      2 ["CTAP1", "CONNECT", "aaa", "c1"]).response = some (.okTok "t0") ∧
    ((handleConnect ⟨"aaa", "t0", [("c9", 7)], false, none, [("aaa", "t0")]⟩
      2 ["CTAP1", "CONNECT", "aaa", "c1"]).response.map renderResponse) =
      some ("OK " ++ "t0" ++ "\n") ∧
    lookupLease (handleConnect ⟨"aaa", "t0", [("c9", 7)], false, none,
      [("aaa", "t0")]⟩ 2 ["CTAP1", "CONNECT", "aaa", "c1"]).sess.leases
      "c1" = some 2 ∧
    (∀ id, id ≠ "c1" →
      lookupLease (handleConnect ⟨"aaa", "t0", [("c9", 7)], false, none,
        [("aaa", "t0")]⟩ 2 ["CTAP1", "CONNECT", "aaa", "c1"]).sess.leases id =
      lookupLease [("c9", 7)] id) ∧
    (handleConnect ⟨"aaa", "t0", [("c9", 7)], false, none, [("aaa", "t0")]⟩
      2 ["CTAP1", "CONNECT", "aaa", "c1"]).deadlineCleared = true ∧
    2 ∉ (handleConnect ⟨"aaa", "t0", [("c9", 7)], false, none, [("aaa", "t0")]⟩
      2 ["CTAP1", "CONNECT", "aaa", "c1"]).closedConns ∧
    (handleConnect ⟨"aaa", "t0", [("c9", 7)], false, none, [("aaa", "t0")]⟩
      2 ["CTAP1", "CONNECT", "aaa", "c1"]).monitorStarted = true ∧
    monitorFire (handleConnect ⟨"aaa", "t0", [("c9", 7)], false, none,
        [("aaa", "t0")]⟩ 2 ["CTAP1", "CONNECT", "aaa", "c1"]).sess "c1" 2 =
      { (handleConnect ⟨"aaa", "t0", [("c9", 7)], false, none, [("aaa", "t0")]⟩
          2 ["CTAP1", "CONNECT", "aaa", "c1"]).sess with
          leases := eraseLease (handleConnect ⟨"aaa", "t0", [("c9", 7)], false,
            none, [("aaa", "t0")]⟩ 2 ["CTAP1", "CONNECT", "aaa", "c1"]).sess.leases
            "c1" } ∧
    (∀ s' : Sess, lookupLease s'.leases "c1" ≠ some 2 →
      monitorFire s' "c1" 2 = s') :=
  connect_same_version ⟨"aaa", "t0", [("c9", 7)], false, none, [("aaa", "t0")]⟩
    2 "CTAP1" "CONNECT" "c1" (by decide)

theorem conflicting_filter_eq (l : List (String × Conn)) (cid : String) :
    ((eraseLease l cid).filter (fun p => !(p.1 == cid))).length =
      (eraseLease l cid).length := by
  rw [eraseLease, List.filter_filter]
  simp

/-- C6: a CONNECT whose submitted commit differs from the current commit,
    arriving while the leases table holds at least one entry keyed by a
    different client_id, is answered with exactly the line
    `ERR version mismatch: <current> running, <n> client(s) connected`
    where `<n>` counts the leases keyed differently, the connection is
    closed, and no restart is enqueued (`pending` and `restartInProgress`
    are untouched). -/
theorem connect_version_mismatch (s : Sess) (conn : Conn) (p0 p1 c cid : String)
    (hdiff : c ≠ s.commit)
    (hother : 0 < (eraseLease s.leases cid).length) :
    (handleConnect s conn [p0, p1, c, cid]).response =
      some (.errMismatch s.commit (eraseLease s.leases cid).length) ∧
    (handleConnect s conn [p0, p1, c, cid]).response.map renderResponse =
      some ("ERR version mismatch: " ++ s.commit ++ " running, " ++
        toString (eraseLease s.leases cid).length ++ " client(s) connected\n") ∧
    conn ∈ (handleConnect s conn [p0, p1, c, cid]).closedConns ∧
    (handleConnect s conn [p0, p1, c, cid]).sess.pending = s.pending ∧
    (handleConnect s conn [p0, p1, c, cid]).sess.restartInProgress =
      s.restartInProgress := by
  have hc : 0 < ((eraseLease s.leases cid).filter
      (fun p => !(p.1 == cid))).length := by
    rw [conflicting_filter_eq]
    exact hother
  have hstep : handleConnect s conn [p0, p1, c, cid] =
      { sess := { s with leases := eraseLease s.leases cid },
        response := some (.errMismatch s.commit
          ((eraseLease s.leases cid).filter (fun p => !(p.1 == cid))).length),
        closedConns := (match lookupLease s.leases cid with
          | some old => [old]
          | none => []) ++ [conn],
        deadlineCleared := false,
        monitorStarted := false } := by
    simp only [handleConnect]
    rw [if_neg hdiff, if_pos hc]
  rw [hstep, conflicting_filter_eq]
  refine ⟨rfl, rfl, ?_, rfl, rfl⟩
  simp

/-- Witness for C6: a session at commit aaa holding a lease for c1
    receives a CONNECT for commit bbb from client c2. -/
theorem connect_version_mismatch_witness :
    (handleConnect ⟨"aaa", "t0", [("c1", 7)], false, none, [("aaa", "t0")]⟩
      2 ["CTAP1", "CONNECT", "bbb", "c2"]).response =
      some (.errMismatch "aaa" (eraseLease [("c1", 7)] "c2").length) ∧
    (handleConnect ⟨"aaa", "t0", [("c1", 7)], false, none, [("aaa", "t0")]⟩
      2 ["CTAP1", "CONNECT", "bbb", "c2"]).response.map renderResponse =
      some ("ERR version mismatch: " ++ "aaa" ++ " running, " ++
        toString (eraseLease [("c1", 7)] "c2").length ++
        " client(s) connected\n") ∧
    2 ∈ (handleConnect ⟨"aaa", "t0", [("c1", 7)], false, none, [("aaa", "t0")]⟩
      2 ["CTAP1", "CONNECT", "bbb", "c2"]).closedConns ∧
    (handleConnect ⟨"aaa", "t0", [("c1", 7)], false, none, [("aaa", "t0")]⟩
      2 ["CTAP1", "CONNECT", "bbb", "c2"]).sess.pending = none ∧
    (handleConnect ⟨"aaa", "t0", [("c1", 7)], false, none, [("aaa", "t0")]⟩
      2 ["CTAP1", "CONNECT", "bbb", "c2"]).sess.restartInProgress = false :=
  connect_version_mismatch ⟨"aaa", "t0", [("c1", 7)], false, none,
    [("aaa", "t0")]⟩ 2 "CTAP1" "CONNECT" "bbb" "c2" (by decide) (by decide)

/-- A reachable state with a restart in flight: a fresh session at commit
    aaa with token t0 just handled `CTAP1 CONNECT bbb c1`, which set
    `restartInProgress` and parked the handler. -/
def midRestart : Sess :=
  (handleConnect (initSess "aaa" "t0") 1 ["CTAP1", "CONNECT", "bbb", "c1"]).sess

/-- C2 counterexample: in the reachable state `midRestart` the
    restart_in_progress flag is set, yet handling the CTAP1 CONNECT line
    whose commit equals the current commit (`CTAP1 CONNECT aaa c2`) inserts
    a new lease for c2 into the leases table and answers `OK t0` — the
    same-version path of handleConnect never consults
    `restartInProgress`. -/
theorem lease_granted_during_restart_cex :
    SessReachable midRestart ∧
    midRestart.restartInProgress = true ∧
    midRestart.commit = "aaa" ∧
    lookupLease midRestart.leases "c2" = none ∧
    lookupLease ((handleConnect midRestart 2
      ["CTAP1", "CONNECT", "aaa", "c2"]).sess).leases "c2" = some 2 ∧
    (handleConnect midRestart 2 ["CTAP1", "CONNECT", "aaa", "c2"]).response =
      some (.okTok "t0") := by
  refine ⟨SessReachable.step (SessReachable.init "aaa" "t0")
    (SessStep.connect (initSess "aaa" "t0") 1 ["CTAP1", "CONNECT", "bbb", "c1"]),
    ?_, ?_, ?_, ?_, ?_⟩ <;> decide

/-- C2 (amended): while restart_in_progress is true, no CONNECT whose
    submitted commit differs from the current commit adds an entry to the
    leases table — every binding present afterwards was already present
    before; a CONNECT submitting the current commit, however, still
    inserts a lease (see the counterexample). -/
theorem no_new_lease_during_restart (s : Sess) (conn : Conn)
    (parts : List String)
    (hflag : s.restartInProgress = true)
    (hdiff : ∀ a b d : String, parts ≠ [a, b, s.commit, d]) :
    ∀ id c, lookupLease (handleConnect s conn parts).sess.leases id = some c →
      lookupLease s.leases id = some c := by
  intro id c
  match hp : parts with
  | [a, b, cc, d] =>
    have hcc : ¬ (cc = s.commit) := by
      intro he
      exact hdiff a b d (by rw [he])
    simp only [handleConnect]
    rw [if_neg hcc]
    by_cases hconf : ((eraseLease s.leases d).filter
        (fun p => !(p.1 == d))).length > 0
    · rw [if_pos hconf]
      intro hlk
      by_cases hid : id = d
      · rw [hid] at hlk
        simp only [] at hlk
        rw [lookupLease_erase_self] at hlk
        exact absurd hlk (by simp)
      · simp only [] at hlk
        rwa [lookupLease_erase_ne _ _ _ hid] at hlk
    · rw [if_neg hconf, if_pos hflag]
      intro hlk
      by_cases hid : id = d
      · rw [hid] at hlk
        simp only [] at hlk
        rw [lookupLease_erase_self] at hlk
        exact absurd hlk (by simp)
      · simp only [] at hlk
        rwa [lookupLease_erase_ne _ _ _ hid] at hlk
  | [] => exact fun h => h
  | [a] => exact fun h => h
  | [a, b] => exact fun h => h
  | [a, b, cc] => exact fun h => h
  | a :: b :: cc :: d :: e :: rest => exact fun h => h

/-- Witness for the amended C2: in the reachable mid-restart state a
    CONNECT for yet another commit ccc from client c3 leaves the leases
    table without a binding for c3. -/
theorem no_new_lease_during_restart_witness :
    lookupLease ((handleConnect midRestart 3
      ["CTAP1", "CONNECT", "ccc", "c3"]).sess).leases "c3" = none := by
  cases hlk : lookupLease ((handleConnect midRestart 3
      ["CTAP1", "CONNECT", "ccc", "c3"]).sess).leases "c3" with
  | none => rfl
  | some c =>
    have := no_new_lease_during_restart midRestart 3
      ["CTAP1", "CONNECT", "ccc", "c3"] (by decide)
      (fun a b d h => by
        have hcm : midRestart.commit = "aaa" := by decide
        rw [hcm] at h
        simp at h) "c3" c hlk
    have hnone : lookupLease midRestart.leases "c3" = none := by decide
    rw [hnone] at this
    exact absurd this (by simp)

/-- C9: a CONNECT carrying the client_id of an existing lease closes and
    removes that old lease before any version or restart check runs, so on
    every subsequently failing path the old lease is gone: after a
    different-commit CONNECT the old connection is among the closed ones
    and the leases table no longer binds the client_id — in the
    version-mismatch and restart-in-progress replies as much as in the
    parked-restart case, where a failed restart still answers
    `ERR restart failed: <msg>` with the lease dropped; the error path is
    not atomic with respect to the lease table. -/
theorem connect_error_drops_old_lease (s : Sess) (conn old : Conn)
    (p0 p1 c cid : String)
    (hold : lookupLease s.leases cid = some old)
    (hdiff : c ≠ s.commit) :
    old ∈ (handleConnect s conn [p0, p1, c, cid]).closedConns ∧
    lookupLease (handleConnect s conn [p0, p1, c, cid]).sess.leases cid =
      none ∧
    (∀ msg, (handleConnect s conn [p0, p1, c, cid]).response = none →
      (connectResume (restartFailed
        (handleConnect s conn [p0, p1, c, cid]).sess msg)).response =
          some (.errRestartFailed msg) ∧
      lookupLease (connectResume (restartFailed
        (handleConnect s conn [p0, p1, c, cid]).sess msg)).sess.leases cid =
          none) := by
  simp only [handleConnect]
  rw [hold, if_neg hdiff]
  by_cases hconf : 0 < ((eraseLease s.leases cid).filter
      (fun p => !(p.1 == cid))).length
  · rw [if_pos hconf]
    refine ⟨by simp, lookupLease_erase_self _ _, ?_⟩
    intro msg h
    exact absurd h (by simp)
  · rw [if_neg hconf]
    by_cases hflag : s.restartInProgress = true
    · rw [if_pos hflag]
      refine ⟨by simp, lookupLease_erase_self _ _, ?_⟩
      intro msg h
      exact absurd h (by simp)
    · rw [if_neg hflag]
      refine ⟨by simp, lookupLease_erase_self _ _, ?_⟩
      intro msg _
      constructor
      · rfl
      · exact lookupLease_erase_self _ _

/-- Witness for C9: a session at commit aaa with a lease for c1 on
    connection 7 receives `CTAP1 CONNECT bbb c1` on connection 2 while a
    second client c2 also holds a lease, so the request fails with a
    version mismatch — yet connection 7 is closed and the c1 lease is
    gone. -/
theorem connect_error_drops_old_lease_witness :
    7 ∈ (handleConnect ⟨"aaa", "t0", [("c1", 7), ("c2", 8)], false, none,
      [("aaa", "t0")]⟩ 2 ["CTAP1", "CONNECT", "bbb", "c1"]).closedConns ∧
    lookupLease (handleConnect ⟨"aaa", "t0", [("c1", 7), ("c2", 8)], false,
      none, [("aaa", "t0")]⟩ 2
      ["CTAP1", "CONNECT", "bbb", "c1"]).sess.leases "c1" = none ∧
    (∀ msg, (handleConnect ⟨"aaa", "t0", [("c1", 7), ("c2", 8)], false, none,
      [("aaa", "t0")]⟩ 2 ["CTAP1", "CONNECT", "bbb", "c1"]).response = none →
      (connectResume (restartFailed (handleConnect ⟨"aaa", "t0",
        [("c1", 7), ("c2", 8)], false, none, [("aaa", "t0")]⟩ 2
        ["CTAP1", "CONNECT", "bbb", "c1"]).sess msg)).response =
          some (.errRestartFailed msg) ∧
      lookupLease (connectResume (restartFailed (handleConnect ⟨"aaa", "t0",
        [("c1", 7), ("c2", 8)], false, none, [("aaa", "t0")]⟩ 2
        ["CTAP1", "CONNECT", "bbb", "c1"]).sess msg)).sess.leases "c1" =
          none) :=
  connect_error_drops_old_lease ⟨"aaa", "t0", [("c1", 7), ("c2", 8)], false,
    none, [("aaa", "t0")]⟩ 2 7 "CTAP1" "CONNECT" "bbb" "c1" (by decide)
    (by decide)

/-- Session invariant: the observed (commit, token) pair always belongs to
    one started server generation, a pending restart implies the
    restart_in_progress flag, and once the pending restart has completed
    successfully the session already carries the new commit and the new
    token. -/
def SessInv (s : Sess) : Prop :=
  (s.commit, s.token) ∈ s.generations ∧
  (∀ p, s.pending = some p → s.restartInProgress = true) ∧
  (∀ p tok, s.pending = some p → p.phase = .doneOk tok →
    s.token = tok ∧ s.commit = p.newCommit)

theorem handleConnect_cases (s : Sess) (conn : Conn) (parts : List String) :
    (handleConnect s conn parts).sess.commit = s.commit ∧
    (handleConnect s conn parts).sess.token = s.token ∧
    (handleConnect s conn parts).sess.generations = s.generations ∧
    (((handleConnect s conn parts).sess.pending = s.pending ∧
      (handleConnect s conn parts).sess.restartInProgress =
        s.restartInProgress) ∨
     ((handleConnect s conn parts).sess.restartInProgress = true ∧
      ∃ q, (handleConnect s conn parts).sess.pending = some q ∧
        q.phase = .requested)) := by
  match parts with
  | [a, b, c, d] =>
    simp only [handleConnect]
    by_cases h1 : c = s.commit
    · rw [if_pos h1]
      exact ⟨rfl, rfl, rfl, .inl ⟨rfl, rfl⟩⟩
    · rw [if_neg h1]
      by_cases h2 : ((eraseLease s.leases d).filter
          (fun p => !(p.1 == d))).length > 0
      · rw [if_pos h2]
        exact ⟨rfl, rfl, rfl, .inl ⟨rfl, rfl⟩⟩
      · rw [if_neg h2]
        by_cases h3 : s.restartInProgress = true
        · rw [if_pos h3]
          exact ⟨rfl, rfl, rfl, .inl ⟨rfl, rfl⟩⟩
        · rw [if_neg h3]
          exact ⟨rfl, rfl, rfl, .inr ⟨rfl, _, rfl, rfl⟩⟩
  | [] => exact ⟨rfl, rfl, rfl, .inl ⟨rfl, rfl⟩⟩
  | [a] => exact ⟨rfl, rfl, rfl, .inl ⟨rfl, rfl⟩⟩
  | [a, b] => exact ⟨rfl, rfl, rfl, .inl ⟨rfl, rfl⟩⟩
  | [a, b, c] => exact ⟨rfl, rfl, rfl, .inl ⟨rfl, rfl⟩⟩
  | a :: b :: c :: d :: e :: rest => exact ⟨rfl, rfl, rfl, .inl ⟨rfl, rfl⟩⟩

theorem sessInv_init (commit token : String) : SessInv (initSess commit token) := by
  refine ⟨by simp [initSess], ?_, ?_⟩
  · intro p hp
    exact absurd hp (by simp [initSess])
  · intro p tok hp
    exact absurd hp (by simp [initSess])

theorem sessInv_step {s s' : Sess} (hinv : SessInv s) (hstep : SessStep s s') :
    SessInv s' := by
  obtain ⟨hgen, hflag, hpair⟩ := hinv
  cases hstep with
  | connect conn parts =>
    obtain ⟨hc, ht, hg, hrest⟩ := handleConnect_cases s conn parts
    refine ⟨?_, ?_, ?_⟩
    · rw [hc, ht, hg]
      exact hgen
    · cases hrest with
      | inl h =>
        intro p hp
        rw [h.1] at hp
        rw [h.2]
        exact hflag p hp
      | inr h =>
        intro p hp
        exact h.1
    · cases hrest with
      | inl h =>
        intro p tok hp hph
        rw [h.1] at hp
        rw [ht, hc]
        exact hpair p tok hp hph
      | inr h =>
        intro p tok hp hph
        obtain ⟨_, q, hq, hqph⟩ := h
        rw [hq] at hp
        cases Option.some.inj hp
        rw [hqph] at hph
        exact absurd hph (by simp)
  | restartOk newToken =>
    cases hsp : s.pending with
    | none =>
      have hs' : restartDone s newToken = s := by
        simp only [restartDone, hsp]
      rw [hs']
      exact ⟨hgen, hflag, hpair⟩
    | some p =>
      by_cases hph : p.phase = .requested
      · have hs' : restartDone s newToken =
            { s with commit := p.newCommit, token := newToken,
                     generations := (p.newCommit, newToken) :: s.generations,
                     pending := some { p with phase := .doneOk newToken } } := by
          simp only [restartDone, hsp, if_pos hph]
        rw [hs']
        refine ⟨by simp, ?_, ?_⟩
        · intro q hq
          exact hflag p hsp
        · intro q tok hq hqph
          cases Option.some.inj hq
          simp only [] at hqph
          cases RestartPhase.doneOk.inj hqph
          exact ⟨rfl, rfl⟩
      · have hs' : restartDone s newToken = s := by
          simp only [restartDone, hsp, if_neg hph]
        rw [hs']
        exact ⟨hgen, hflag, hpair⟩
  | restartErr msg =>
    cases hsp : s.pending with
    | none =>
      have hs' : restartFailed s msg = s := by
        simp only [restartFailed, hsp]
      rw [hs']
      exact ⟨hgen, hflag, hpair⟩
    | some p =>
      by_cases hph : p.phase = .requested
      · have hs' : restartFailed s msg =
            { s with pending := some { p with phase := .doneErr msg } } := by
          simp only [restartFailed, hsp, if_pos hph]
        rw [hs']
        refine ⟨hgen, ?_, ?_⟩
        · intro q hq
          exact hflag p hsp
        · intro q tok hq hqph
          cases Option.some.inj hq
          simp only [] at hqph
          exact absurd hqph (by simp)
      · have hs' : restartFailed s msg = s := by
          simp only [restartFailed, hsp, if_neg hph]
        rw [hs']
        exact ⟨hgen, hflag, hpair⟩
  | resume =>
    cases hsp : s.pending with
    | none =>
      have hs' : (connectResume s).sess = s := by
        simp only [connectResume, hsp]
      rw [hs']
      exact ⟨hgen, hflag, hpair⟩
    | some p =>
      cases hph : p.phase with
      | requested =>
        have hs' : (connectResume s).sess = s := by
          simp only [connectResume, hsp, hph]
        rw [hs']
        exact ⟨hgen, hflag, hpair⟩
      | doneOk tok =>
        have hs' : (connectResume s).sess =
            { s with restartInProgress := false, pending := none,
                     leases := insertLease s.leases p.clientID p.conn } := by
          simp only [connectResume, hsp, hph]
        rw [hs']
        refine ⟨hgen, ?_, ?_⟩
        · intro q hq
          exact absurd hq (by simp)
        · intro q tok hq
          exact absurd hq (by simp)
      | doneErr msg =>
        have hs' : (connectResume s).sess =
            { s with restartInProgress := false, pending := none } := by
          simp only [connectResume, hsp, hph]
        rw [hs']
        refine ⟨hgen, ?_, ?_⟩
        · intro q hq
          exact absurd hq (by simp)
        · intro q tok hq
          exact absurd hq (by simp)
  | monitor clientID conn =>
    rw [monitorFire]
    by_cases hm : lookupLease s.leases clientID = some conn
    · rw [if_pos hm]
      exact ⟨hgen, hflag, hpair⟩
    · rw [if_neg hm]
      exact ⟨hgen, hflag, hpair⟩

theorem sessReachable_inv {s : Sess} (h : SessReachable s) : SessInv s := by
  induction h with
  | init commit token => exact sessInv_init commit token
  | step _ hstep ih => exact sessInv_step ih hstep

/-- C7: in every reachable session state the (commit, token) pair observed
    under the lock belongs to one started server generation — commit,
    token (and startedAt, waitFn, stopFn) are updated together in
    doRestart's single closing critical section, so they are never mixed
    across servers; and when a version-switch restart has completed
    successfully, the parked CONNECT handler resumes to answer
    `OK <token>` with exactly the token generated for the new server,
    whose commit the session already carries, inserting the requester's
    lease. -/
theorem restart_token_pairing :
    (∀ s, SessReachable s → (s.commit, s.token) ∈ s.generations) ∧
    (∀ s p tok, SessReachable s → s.pending = some p →
      p.phase = .doneOk tok →
      s.token = tok ∧ s.commit = p.newCommit ∧
      (connectResume s).response = some (.okTok tok) ∧
      (connectResume s).response.map renderResponse =
        some ("OK " ++ tok ++ "\n") ∧
      lookupLease (connectResume s).sess.leases p.clientID = some p.conn) := by
  constructor
  · intro s hs
    exact (sessReachable_inv hs).1
  · intro s p tok hs hp hph
    obtain ⟨hgen, hflag, hpair⟩ := sessReachable_inv hs
    obtain ⟨htok, hcom⟩ := hpair p tok hp hph
    have hres : connectResume s =
        { sess := { s with
            restartInProgress := false,
            pending := none,
            leases := insertLease s.leases p.clientID p.conn },
          response := some (.okTok s.token),
          closedConns := [],
          deadlineCleared := true,
          monitorStarted := true } := by
      simp only [connectResume, hp, hph]
    rw [hres, htok]
    exact ⟨rfl, hcom, rfl, rfl, lookupLease_insert_self _ _ _⟩

/-- The mid-restart state after doRestart succeeded with fresh token t1:
    commit is now bbb, token t1, and the handler for connection 1 is ready
    to resume. -/
def afterRestart : Sess := restartDone midRestart "t1"

/-- Witness for C7 at the concrete reachable state `afterRestart`. -/
theorem restart_token_pairing_witness :
    ((afterRestart.commit, afterRestart.token) ∈ afterRestart.generations) ∧
    afterRestart.token = "t1" ∧ afterRestart.commit = "bbb" ∧
    (connectResume afterRestart).response = some (.okTok "t1") ∧
    (connectResume afterRestart).response.map renderResponse =
      some ("OK " ++ "t1" ++ "\n") ∧
    lookupLease (connectResume afterRestart).sess.leases "c1" = some 1 := by
  have hreach : SessReachable afterRestart :=
    SessReachable.step
      (SessReachable.step (SessReachable.init "aaa" "t0")
        (SessStep.connect (initSess "aaa" "t0") 1
          ["CTAP1", "CONNECT", "bbb", "c1"]))
      (SessStep.restartOk midRestart "t1")
  have hp : afterRestart.pending =
      some ⟨1, "c1", "bbb", .doneOk "t1"⟩ := by decide
  have h2 := restart_token_pairing.2 afterRestart ⟨1, "c1", "bbb", .doneOk "t1"⟩
    "t1" hreach hp rfl
  have h1 := restart_token_pairing.1 afterRestart hreach
  exact ⟨h1, h2.1, h2.2.1, h2.2.2.1, h2.2.2.2.1, h2.2.2.2.2⟩

/-!  Startup socket check (Run, service.go lines 100-111, and
`isSocketAliveNow`, lines 619-626).  The file-system and network
behaviour of the stale-socket probe is an environment choice, recorded in
`StartupEnv`: whether the control socket path exists, whether a Unix
dial to it completes within 1 second, and whether a CTAP1 INFO query
sent over it would be answered within 1 second (a listener can accept
dials yet never answer INFO, so the last two are independent apart from
an answer requiring a connection). -/

/-- Environment the startup check runs in. -/
structure StartupEnv where
  ctlSockExists : Bool
  dialSucceeds : Bool
  infoResponds : Bool
deriving Repr, DecidableEq

/-- Outcome of the stale-socket block of Run: either the run aborts with
    the "already running" error before any further startup step, or it
    proceeds, having removed the named socket files (`removedCtl` tells
    whether the `os.Remove(ctlSocketPath)` call was made; the data socket
    is always removed on the proceed path). -/
inductive StartupCheck where
  | abortAlreadyRunning
  | proceed (removedCtl removedSock : Bool)
deriving Repr, DecidableEq

/-- isSocketAliveNow (service.go lines 619-626): dials the Unix socket
    with a 1-second timeout and reports whether the dial succeeded; it
    sends nothing — in particular no INFO query — before closing. -/
def isSocketAliveNow (e : StartupEnv) : Bool :=
  e.dialSucceeds

/-- The stale-socket block of Run (service.go lines 100-111): if the
    control socket path exists and `isSocketAliveNow` holds, return the
    "already running" error; otherwise remove the control socket (only
    when its path existed) and then the data socket, and continue. -/
def runStartupSocketCheck (e : StartupEnv) : StartupCheck :=
  if e.ctlSockExists then
    if isSocketAliveNow e then .abortAlreadyRunning
    else .proceed true true
  else .proceed false true

/-- C4 counterexample: an environment in which the control socket path
    exists and accepts a dial but would never answer an INFO query.  The
    claim reads "live means it responds to an INFO query within 1 second"
    and requires Run to remove both sockets and proceed whenever that
    liveness fails — but the code aborts with "already running", because
    `isSocketAliveNow` only dials and never sends INFO. -/
theorem startup_liveness_cex :
    (⟨true, true, false⟩ : StartupEnv).infoResponds = false ∧
    runStartupSocketCheck ⟨true, true, false⟩ = .abortAlreadyRunning := by
  decide

/-- C4 (amended): during startup, if `<N>.ctl.sock` exists and is live —
    where live means a Unix dial to it completes within 1 second (no INFO
    query is sent) — Run aborts with the "already running" error and
    performs no further startup step; otherwise Run proceeds after
    removing `<N>.sock` and, when its path existed, the dead
    `<N>.ctl.sock`, so neither socket path survives into startup. -/
theorem startup_socket_check (e : StartupEnv) :
    (e.ctlSockExists = true → isSocketAliveNow e = true →
      runStartupSocketCheck e = .abortAlreadyRunning) ∧
    (¬ (e.ctlSockExists = true ∧ isSocketAliveNow e = true) →
      runStartupSocketCheck e = .proceed e.ctlSockExists true) ∧
    isSocketAliveNow e = e.dialSucceeds := by
  obtain ⟨a, b, c⟩ := e
  cases a <;> cases b <;> cases c <;> decide

/-- Witness for the amended C4: a dead-but-present control socket is
    removed and startup proceeds; a live one aborts the run. -/
theorem startup_socket_check_witness :
    runStartupSocketCheck ⟨true, false, false⟩ = .proceed true true ∧
    runStartupSocketCheck ⟨true, true, true⟩ = .abortAlreadyRunning :=
  ⟨(startup_socket_check ⟨true, false, false⟩).2.1 (by decide),
   (startup_socket_check ⟨true, true, true⟩).1 rfl rfl⟩

end CodeTap
